import Mathlib

/-!
Verification of the resume-screening pipeline (service_bus_trigger_func).

Shallow embedding of the progress-tracker, reconciliation, idempotency and
orchestration logic of `src/services/cosmos_db_service.py` and
`src/function_app.py`.  Stateful Cosmos DB containers are modelled as
explicit lists of documents; every fallible external call is modelled by an
explicit `Except` result or a boolean failure flag that the embedded
function receives as an argument.  Python exceptions are modelled as
`Except String` values carrying the exception message.
-/

/-- One entry of a tracker's `resume_statuses` list
(`update_screening_job_progress_by_job_id`, cosmos_db_service.py:1028). -/
structure ResumeStatusEntry where
  filename : String
  status : String
  processed_at : String
  screening_id : Option String
  deriving Repr, DecidableEq

/-- The `screening_jobs` tracker document
(`initialize_screening_job_for_job`, cosmos_db_service.py:946).
`progress_percentage` is absent until the first progress update writes it,
hence `Option`. -/
structure ScreeningJobTracker where
  job_id : String
  user_id : String
  total_resumes : Nat
  processed_resumes : Nat
  successful_resumes : Nat
  failed_resumes : Nat
  status : String
  created_at : String
  updated_at : String
  resume_statuses : List ResumeStatusEntry
  progress_percentage : Option Nat
  deriving Repr, DecidableEq

/-- A document of the `screenings` container as written by
`save_screening_result` (cosmos_db_service.py:476).  The saved document
carries the resume's filename only inside `screening_details`
(`details_filename` here); a top-level `resume_filename` property is not
written by this code, so it is `Option`al (other writers could set it). -/
structure ScreeningRecord where
  id : String
  job_id : String
  user_id : String
  resume_filename : Option String
  details_filename : String
  deriving Repr, DecidableEq

/-- A job-description document, restricted to the fields the pipeline
reads (`function_app.py:105-120`). -/
structure JobDoc where
  job_id : String
  user_id : String
  deriving Repr, DecidableEq

/-- `get_screening_job_by_job_id` (cosmos_db_service.py:887):
point read of the tracker with `job_id` as id and partition key. -/
def get_screening_job_by_job_id (store : List ScreeningJobTracker)
    (job_id : String) : Option ScreeningJobTracker :=
  store.find? (fun t => t.job_id = job_id)

/-- The fresh tracker document created by
`initialize_screening_job_for_job` (cosmos_db_service.py:946-958). -/
def initTracker (job_id user_id now : String) : ScreeningJobTracker :=
  { job_id := job_id
    user_id := user_id
    total_resumes := 0
    processed_resumes := 0
    successful_resumes := 0
    failed_resumes := 0
    status := "processing"
    created_at := now
    updated_at := now
    resume_statuses := []
    progress_percentage := none }

/-- `initialize_screening_job_for_job` (cosmos_db_service.py:924-972):
create-or-get; an existing tracker, or a `CosmosResourceExistsError` from a
concurrent creation, is treated as success.  The function returns `True`
on every path (even its own error handler returns `True`). -/
def initialize_screening_job_for_job (store : List ScreeningJobTracker)
    (job_id user_id now : String) : Bool × List ScreeningJobTracker :=
  match get_screening_job_by_job_id store job_id with
  | some _ => (true, store)
  | none => (true, store ++ [initTracker job_id user_id now])

/-- `upsert_item` on the `screening_jobs` container: replace the document
whose id (= `job_id`) matches, insert it otherwise. -/
def upsertTracker (store : List ScreeningJobTracker)
    (t : ScreeningJobTracker) : List ScreeningJobTracker :=
  if store.any (fun u => u.job_id = t.job_id) then
    store.map (fun u => if u.job_id = t.job_id then t else u)
  else
    store ++ [t]

/-- The pure in-memory mutation performed by
`update_screening_job_progress_by_job_id` between its load and its
write-back (cosmos_db_service.py:1019-1047). -/
def applyProgress (t : ScreeningJobTracker) (resume_filename status : String)
    (screening_id : Option String) (now : String) : ScreeningJobTracker :=
  let p := t.processed_resumes + 1
  let succ := if status = "success" then t.successful_resumes + 1
              else t.successful_resumes
  let fl := if status = "success" then t.failed_resumes
            else t.failed_resumes + 1
  let newStatus := if t.total_resumes ≤ p then "completed" else t.status
  let pct := if 0 < t.total_resumes then p * 100 / t.total_resumes else 0
  { t with
      processed_resumes := p
      successful_resumes := succ
      failed_resumes := fl
      resume_statuses := t.resume_statuses ++
        [⟨resume_filename, status, now, screening_id⟩]
      status := newStatus
      updated_at := now
      progress_percentage := some pct }

/-- `update_screening_job_progress_by_job_id`
(cosmos_db_service.py:1002-1064): load the tracker, mutate it in memory,
upsert it back.  `getFails` models a storage error inside the load (the
load itself swallows errors and yields `None`); `upsertFails` models a
storage error in the write-back.  Every error path returns `false` and the
function never raises. -/
def update_screening_job_progress_by_job_id (getFails upsertFails : Bool)
    (store : List ScreeningJobTracker) (job_id resume_filename status : String)
    (screening_id : Option String) (now : String) :
    Bool × List ScreeningJobTracker :=
  match (if getFails then none else get_screening_job_by_job_id store job_id) with
  | none => (false, store)
  | some t =>
    if upsertFails then (false, store)
    else (true, upsertTracker store (applyProgress t resume_filename status screening_id now))

/-- `is_resume_already_processed` (cosmos_db_service.py:1068-1101):
count the `screenings` documents whose top-level `job_id` and
`resume_filename` properties equal the given pair; any query error yields
`False`. -/
def is_resume_already_processed (queryFails : Bool)
    (screenings : List ScreeningRecord) (job_id resume_filename : String) : Bool :=
  if queryFails then false
  else 0 < (screenings.filter
    (fun r => r.job_id = job_id ∧ r.resume_filename = some resume_filename)).length

/-- String prefix test, on the underlying character lists. -/
def strHasPrefix (pre s : String) : Bool :=
  pre.toList.isPrefixOf s.toList

/-- String suffix test, on the underlying character lists. -/
def strHasSuffix (suf s : String) : Bool :=
  suf.toList.isSuffixOf s.toList

/-- `get_total_resumes_in_blob` (cosmos_db_service.py:1104-1137): list the
blobs whose name starts with `job_id ++ "/"`, count those not ending in
`"/"`; any exception yields `0`.  `blobNames` is the full container
listing, `listFails` models a storage exception. -/
def get_total_resumes_in_blob (blobNames : List String) (listFails : Bool)
    (job_id : String) : Nat :=
  if listFails then 0
  else ((blobNames.filter (fun n => strHasPrefix (job_id ++ "/") n)).filter
    (fun n => ¬ (strHasSuffix "/" n))).length

/-- The status view returned by `get_screening_job_status_by_job_id`
(cosmos_db_service.py:1165-1219), restricted to the scalar fields plus the
completed-results list. -/
structure StatusView where
  job_id : String
  status : String
  total_resumes : Nat
  processed_resumes : Nat
  successful_resumes : Nat
  failed_resumes : Nat
  progress_percentage : Nat
  completed_results : List ScreeningRecord
  deriving Repr, DecidableEq

/-- `get_screening_results` (cosmos_db_service.py:500-532) restricted to
the filter it applies: all `screenings` documents of the job.  (The
source also orders by `screened_at`; ordering is irrelevant here.) -/
def get_screening_results (screenings : List ScreeningRecord)
    (job_id : String) : List ScreeningRecord :=
  screenings.filter (fun r => r.job_id = job_id)

/-- `get_screening_job_status_by_job_id` (cosmos_db_service.py:1140-1223).
`jobOk` models whether `get_job_description(job_id, user_id)` returned a
document; `resultsFails` models `get_screening_results` raising, which the
outer handler turns into `None`.  `none` models the Python `None` result. -/
def get_screening_job_status_by_job_id (jobOk : Bool)
    (blobNames : List String) (listFails : Bool) (resultsFails : Bool)
    (trackers : List ScreeningJobTracker)
    (screenings : List ScreeningRecord) (job_id : String) : Option StatusView :=
  if jobOk then
    let total := get_total_resumes_in_blob blobNames listFails job_id
    match get_screening_job_by_job_id trackers job_id with
    | none =>
      if 0 < total then
        some ⟨job_id, "pending", total, 0, 0, 0, 0, []⟩
      else
        some ⟨job_id, "no_resumes", 0, 0, 0, 0, 0, []⟩
    | some t =>
      if resultsFails then none
      else
        let completed := get_screening_results screenings job_id
        let processed := t.processed_resumes
        let pct := if 0 < total then processed * 100 / total else 0
        let st := if total ≤ processed ∧ 0 < total then "completed"
                  else if 0 < processed then "processing"
                  else "pending"
        some ⟨job_id, st, total, processed, t.successful_resumes,
          t.failed_resumes, pct, completed⟩
  else none

/-- `save_screening_result` (cosmos_db_service.py:456-498): build a
screening document keyed by a freshly generated uuid (`uuid` argument) and
`create_item` it.  `create_item` conflicts exactly when a document with the
same `id` already exists; every exception is re-raised as
`Failed to save screening result: ...`.  On success the screening id and
the new container contents are returned.
(`update_job_screening_count` swallows its own errors and touches only the
jobs/users statistics, so it is not modelled.) -/
def save_screening_result (uuid : String) (screenings : List ScreeningRecord)
    (job_id user_id resume_filename : String) :
    Except String (String × List ScreeningRecord) :=
  if screenings.any (fun r => r.id = uuid) then
    Except.error ("Failed to save screening result: Entity with the specified id already exists in the system")
  else
    Except.ok (uuid,
      screenings ++ [⟨uuid, job_id, user_id, none, resume_filename⟩])

/-- The persisted state the orchestrator touches: job descriptions,
trackers, screening results. -/
structure World where
  jobs : List JobDoc
  trackers : List ScreeningJobTracker
  screenings : List ScreeningRecord
  deriving Repr, DecidableEq

/-- Outcomes of the external collaborator calls made while processing one
work item, plus failure flags for the fallible tracker accesses
(`process_resume`, function_app.py:74-253).  `download`, `parseDoc` and
`score` carry the exception message on failure; `uuid` is the fresh id
`save_screening_result` will generate. -/
structure Env where
  dupQueryFails : Bool
  download : Except String Nat
  parseDoc : Except String String
  score : Except String Nat
  uuid : String
  now : String
  updGetFails : Bool
  updUpsertFails : Bool
  failUpdGetFails : Bool
  failUpdUpsertFails : Bool
  deriving Repr

/-- The `except` block of `process_resume` (function_app.py:230-253): a
best-effort progress update with status `"failed"` whose own failure is
swallowed, then a new `Exception` whose message embeds the original
message. -/
def markFailed (env : Env) (w : World) (job_id resume_filename msg : String) :
    Except String Unit × World :=
  let r := update_screening_job_progress_by_job_id env.failUpdGetFails
    env.failUpdUpsertFails w.trackers job_id resume_filename "failed" none env.now
  (Except.error ("Resume processing failed: " ++ msg), { w with trackers := r.2 })

/-- `process_resume` (function_app.py:74-253): duplicate check, job
lookup, lazy tracker creation, download, parse, score, persist, progress
update; any failure after the duplicate check falls into `markFailed`. -/
def process_resume (env : Env) (w : World)
    (job_id resume_blob_url resume_filename : String) :
    Except String Unit × World :=
  if is_resume_already_processed env.dupQueryFails w.screenings job_id resume_filename then
    (Except.ok (), w)
  else
    match (w.jobs.filter (fun j => j.job_id = job_id)).head? with
    | none =>
      markFailed env w job_id resume_filename
        ("Job description not found for job_id: " ++ job_id)
    | some job =>
      let w1 : World :=
        match get_screening_job_by_job_id w.trackers job_id with
        | some _ => w
        | none =>
          { w with trackers :=
              (initialize_screening_job_for_job w.trackers job_id job.user_id env.now).2 }
      match env.download with
      | Except.error e => markFailed env w1 job_id resume_filename e
      | Except.ok _ =>
      match env.parseDoc with
      | Except.error e => markFailed env w1 job_id resume_filename e
      | Except.ok _ =>
      match env.score with
      | Except.error e => markFailed env w1 job_id resume_filename e
      | Except.ok _ =>
      match save_screening_result env.uuid w1.screenings job_id job.user_id resume_filename with
      | Except.error e => markFailed env w1 job_id resume_filename e
      | Except.ok (sid, scr) =>
        let w2 : World := { w1 with screenings := scr }
        let r := update_screening_job_progress_by_job_id env.updGetFails
          env.updUpsertFails w2.trackers job_id resume_filename "success" (some sid) env.now
        (Except.ok (), { w2 with trackers := r.2 })

/-- An Event Grid event as read by `parse_event_grid_message`
(function_app.py:32-71): the nested `data.url` (absent or empty string is
falsy in Python) and the `subject` path. -/
structure EventMsg where
  dataUrl : Option String
  subject : String
  deriving Repr, DecidableEq

/-- The message body delivered to the function: a single event object or a
JSON array of events (only element 0 is read). -/
inductive MessageBody where
  | single (e : EventMsg)
  | batch (es : List EventMsg)
  deriving Repr, DecidableEq

/-- `message_body[0] if isinstance(message_body, list) else message_body`
(function_app.py:35-38); indexing an empty array raises. -/
def firstEvent : MessageBody → Option EventMsg
  | MessageBody.single e => some e
  | MessageBody.batch es => es.head?

/-- The normalized work item returned by `parse_event_grid_message`
(function_app.py:61-66). -/
structure WorkItem where
  job_id : String
  resume_blob_url : String
  resume_filename : String
  container_name : String
  deriving Repr, DecidableEq

/-- Literal `/containers/` of the subject pattern
`/containers/([^/]+)/blobs/(.+)$` (function_app.py:45). -/
def containersLit : List Char := '/' :: 'c' :: 'o' :: 'n' :: 't' :: 'a' :: 'i' :: 'n' :: 'e' :: 'r' :: 's' :: '/' :: []

/-- Literal `/blobs/` of the subject pattern (function_app.py:45). -/
def blobsLit : List Char := '/' :: 'b' :: 'l' :: 'o' :: 'b' :: 's' :: '/' :: []

/-- Attempt to match `/containers/([^/]+)/blobs/(.+)$` at the head of `l`:
the container group is the maximal nonempty run of non-slash characters
after `/containers/`, which must be followed by `/blobs/` and at least one
further character; group 2 runs to the end of the string. -/
def matchAt (l : List Char) : Option (List Char × List Char) :=
  if containersLit.isPrefixOf l then
    let r0 := l.drop containersLit.length
    let cont := r0.takeWhile (fun c => c ≠ '/')
    let r1 := r0.dropWhile (fun c => c ≠ '/')
    if cont ≠ [] ∧ blobsLit.isPrefixOf r1 ∧ r1.drop blobsLit.length ≠ [] then
      some (cont, r1.drop blobsLit.length)
    else none
  else none

/-- `re.search` of the pattern: leftmost position at which `matchAt`
succeeds (the pattern starts with a literal, so scanning one character at
a time is exact). -/
def searchPattern : List Char → Option (List Char × List Char)
  | [] => none
  | c :: cs =>
    match matchAt (c :: cs) with
    | some r => some r
    | none => searchPattern cs

/-- Python `blob_path.split("/", 1)` (function_app.py:52): at most one
split, at the first slash. -/
def splitFirstSlash (l : List Char) : List (List Char) :=
  if l.any (fun c => c = '/') then
    [l.takeWhile (fun c => c ≠ '/'), (l.dropWhile (fun c => c ≠ '/')).drop 1]
  else [l]

/-- `parse_event_grid_message` (function_app.py:32-71).  Errors carry the
raised message; `data.url` missing or empty is falsy and rejected. -/
def parse_event_grid_message (m : MessageBody) : Except String WorkItem :=
  match firstEvent m with
  | none => Except.error "list index out of range"
  | some e =>
    match e.dataUrl with
    | none => Except.error "No blob URL found in event data"
    | some url =>
      if url = "" then Except.error "No blob URL found in event data"
      else
        match searchPattern e.subject.toList with
        | none => Except.error ("Cannot parse blob path from subject: " ++ e.subject)
        | some (cont, blobPath) =>
          match splitFirstSlash blobPath with
          | p1 :: p2 :: _ =>
            Except.ok ⟨String.mk p1, url, String.mk p2, String.mk cont⟩
          | _ => Except.error ("Invalid blob path format: " ++ String.mk blobPath)

/-- Spec-side condition: the `data.url` field is missing (absent or the
empty, falsy, string). -/
def urlFalsy (e : EventMsg) : Bool :=
  e.dataUrl = none ∨ e.dataUrl = some ""

/-- Spec-side condition: the subject does not match the
containers/blobs path pattern. -/
def subjectNoMatch (e : EventMsg) : Bool :=
  (searchPattern e.subject.toList).isNone

/-- Spec-side condition: the remainder after the container segment has
fewer than two path components, i.e. the matched remainder contains no
slash at all. -/
def remainderTooShort (e : EventMsg) : Bool :=
  match searchPattern e.subject.toList with
  | some (_, rest) => ¬ rest.any (fun c => c = '/')
  | none => false

/-- Arguments of one `RecordOutcome` call
(`update_screening_job_progress_by_job_id`). -/
structure PendingOp where
  filename : String
  status : String
  screening_id : Option String
  deriving Repr, DecidableEq

/-- The phase of one worker executing
`update_screening_job_progress_by_job_id`, split at its two storage
accesses: before the load, between load and write-back (holding the loaded
snapshot), and done with the returned boolean. -/
inductive WorkerPhase where
  | toLoad (op : PendingOp)
  | toWrite (op : PendingOp) (snapshot : Option ScreeningJobTracker)
  | finished (res : Bool)
  deriving Repr, DecidableEq

/-- One atomic step of a worker against the shared tracker container:
the load reads the current document, the write-back upserts the document
computed from the worker's own snapshot (exactly the load-then-write cycle
of cosmos_db_service.py:1014-1056). -/
def stepWorker (now job_id : String) (ph : WorkerPhase)
    (store : List ScreeningJobTracker) : WorkerPhase × List ScreeningJobTracker :=
  match ph with
  | WorkerPhase.toLoad op =>
    (WorkerPhase.toWrite op (get_screening_job_by_job_id store job_id), store)
  | WorkerPhase.toWrite op snap =>
    match snap with
    | none => (WorkerPhase.finished false, store)
    | some t =>
      (WorkerPhase.finished true,
        upsertTracker store (applyProgress t op.filename op.status op.screening_id now))
  | WorkerPhase.finished r => (WorkerPhase.finished r, store)

/-- Run an interleaving of several workers: the schedule names, step by
step, which worker performs its next storage access. -/
def runSchedule (now job_id : String) : List Nat → List WorkerPhase →
    List ScreeningJobTracker → List WorkerPhase × List ScreeningJobTracker
  | [], phs, store => (phs, store)
  | i :: rest, phs, store =>
    match phs.get? i with
    | none => runSchedule now job_id rest phs store
    | some ph =>
      let r := stepWorker now job_id ph store
      runSchedule now job_id rest (phs.set i r.1) r.2

/-- `processed_resumes` of the tracker currently stored for a job (0 when
absent). -/
def processedOf (store : List ScreeningJobTracker) (job_id : String) : Nat :=
  match get_screening_job_by_job_id store job_id with
  | some t => t.processed_resumes
  | none => 0

/-- Tracker-container states reachable from the empty container through
any sequence of `initialize_screening_job_for_job` and
`update_screening_job_progress_by_job_id` calls (any arguments, any
injected storage failures). -/
inductive ReachableStore : List ScreeningJobTracker → Prop where
  | empty : ReachableStore []
  | init (s : List ScreeningJobTracker) (job_id user_id now : String) :
      ReachableStore s →
      ReachableStore (initialize_screening_job_for_job s job_id user_id now).2
  | record (s : List ScreeningJobTracker) (gf uf : Bool)
      (job_id fn st : String) (sid : Option String) (now : String) :
      ReachableStore s →
      ReachableStore
        (update_screening_job_progress_by_job_id gf uf s job_id fn st sid now).2

/-- The counter invariant of §3 of the spec, per tracker document. -/
def counterInv (t : ScreeningJobTracker) : Prop :=
  t.processed_resumes = t.successful_resumes + t.failed_resumes

/-- Collaborator outcomes for a work item whose every step succeeds
(used to exercise the duplicate-check short-circuit). -/
def dupEnv : Env :=
  { dupQueryFails := false, download := Except.ok 1, parseDoc := Except.ok "x",
    score := Except.ok 1, uuid := "u", now := "t", updGetFails := false,
    updUpsertFails := false, failUpdGetFails := false, failUpdUpsertFails := false }

/-- A world already holding a screening result carrying a top-level
`resume_filename` property for (j, f.pdf). -/
def dupWorld : World :=
  { jobs := [], trackers := [],
    screenings := [⟨"u0", "j", "usr", some "f.pdf", "f.pdf"⟩] }

/-- Collaborator outcomes where the blob download raises `boom` and
everything else would succeed. -/
def envBoom : Env :=
  { dupQueryFails := false, download := Except.error "boom",
    parseDoc := Except.ok "text", score := Except.ok 72, uuid := "u1",
    now := "t1", updGetFails := false, updUpsertFails := false,
    failUpdGetFails := false, failUpdUpsertFails := false }

/-- A world with one job description and nothing else. -/
def worldOneJob : World := { jobs := [⟨"j", "usr"⟩], trackers := [], screenings := [] }

/-- Claim C1: for every job_id and user_id for which the job lookup succeeds
(`jobOk = true`), whenever the status query returns a view, its
`total_resumes` equals the count obtained by listing blob storage under the
prefix `job_id ++ "/"` at call time — for every tracker-container state, so
regardless of the tracker's stored `total_resumes` field and regardless of
whether a tracker exists at all. -/
theorem C1_total_resumes_recomputed_from_blob
    (blobNames : List String) (resultsFails : Bool)
    (trackers : List ScreeningJobTracker) (screenings : List ScreeningRecord)
    (job_id : String) (v : StatusView)
    (h : get_screening_job_status_by_job_id true blobNames false resultsFails
      trackers screenings job_id = some v) :
    v.total_resumes
      = ((blobNames.filter (fun n => strHasPrefix (job_id ++ "/") n)).filter
          (fun n => ¬ (strHasSuffix "/" n))).length := by
  have hc : get_total_resumes_in_blob blobNames false job_id
      = ((blobNames.filter (fun n => strHasPrefix (job_id ++ "/") n)).filter
          (fun n => ¬ (strHasSuffix "/" n))).length := rfl
  rw [← hc]
  unfold get_screening_job_status_by_job_id at h
  rw [if_pos rfl] at h
  split at h
  · dsimp only at h
    split at h
    · cases h; rfl
    · cases h
      rename_i hneg
      simp only [not_lt, Nat.le_zero] at hneg
      simpa using hneg.symm
  · dsimp only at h
    split at h
    · simp at h
    · cases h; rfl

/-- Claim C2 counterexample: a tracker exists with `processed_resumes = 0`,
which is strictly less than the ground-truth count 1, yet the status query
reports "pending", not the "processing" the claim requires. -/
theorem C2_cex_tracker_zero_processed_is_pending :
    (get_screening_job_status_by_job_id true ["j/a.pdf"] false false
        [initTracker "j" "u" "t0"] [] "j").map StatusView.status = some "pending"
    ∧ (initTracker "j" "u" "t0").processed_resumes
        < get_total_resumes_in_blob ["j/a.pdf"] false "j"
    ∧ ("pending" : String) ≠ "processing" := by
  refine ⟨rfl, by decide, by decide⟩

/-- Claim C10: when listing blob storage raises, the count function
returns 0 instead of propagating the error, so with no tracker the status
query reports total_resumes = 0 and status "no_resumes" even when resume
objects are present in the (unlistable) container. -/
theorem C10_listing_error_yields_zero_and_no_resumes
    (blobNames : List String) (screenings : List ScreeningRecord)
    (trackers : List ScreeningJobTracker) (job_id : String)
    (hnt : get_screening_job_by_job_id trackers job_id = none) :
    get_total_resumes_in_blob blobNames true job_id = 0
    ∧ get_screening_job_status_by_job_id true blobNames true false
        trackers screenings job_id
      = some ⟨job_id, "no_resumes", 0, 0, 0, 0, 0, []⟩ := by
  constructor
  · rfl
  · unfold get_screening_job_status_by_job_id
    rw [if_pos rfl, hnt]
    rfl

theorem counterInv_initTracker (job_id user_id now : String) :
    counterInv (initTracker job_id user_id now) := by
  simp [counterInv, initTracker]

theorem counterInv_applyProgress (t : ScreeningJobTracker)
    (fn st : String) (sid : Option String) (now : String)
    (h : counterInv t) : counterInv (applyProgress t fn st sid now) := by
  unfold counterInv at *
  unfold applyProgress
  by_cases hs : st = "success" <;> simp [hs] <;> omega

theorem applyProgress_job_id (t : ScreeningJobTracker)
    (fn st : String) (sid : Option String) (now : String) :
    (applyProgress t fn st sid now).job_id = t.job_id := rfl

theorem applyProgress_processed (t : ScreeningJobTracker)
    (fn st : String) (sid : Option String) (now : String) :
    (applyProgress t fn st sid now).processed_resumes = t.processed_resumes + 1 := rfl

theorem mem_upsertTracker {s : List ScreeningJobTracker}
    {t u : ScreeningJobTracker} (h : u ∈ upsertTracker s t) :
    u = t ∨ u ∈ s := by
  unfold upsertTracker at h
  split at h
  · rcases List.mem_map.mp h with ⟨a, ha, hfa⟩
    by_cases hc : a.job_id = t.job_id
    · rw [if_pos hc] at hfa
      exact Or.inl hfa.symm
    · rw [if_neg hc] at hfa
      exact Or.inr (hfa ▸ ha)
  · rcases List.mem_append.mp h with h1 | h1
    · exact Or.inr h1
    · exact Or.inl (by simpa using h1)

theorem init_snd_cases (s : List ScreeningJobTracker) (jid uid now : String) :
    (initialize_screening_job_for_job s jid uid now).2 = s
    ∨ (initialize_screening_job_for_job s jid uid now).2
        = s ++ [initTracker jid uid now] := by
  unfold initialize_screening_job_for_job
  cases hf : get_screening_job_by_job_id s jid <;> simp

theorem update_snd_cases (gf uf : Bool) (s : List ScreeningJobTracker)
    (jid fn st : String) (sid : Option String) (now : String) :
    (update_screening_job_progress_by_job_id gf uf s jid fn st sid now).2 = s
    ∨ ∃ t0, get_screening_job_by_job_id s jid = some t0
        ∧ (update_screening_job_progress_by_job_id gf uf s jid fn st sid now).2
            = upsertTracker s (applyProgress t0 fn st sid now) := by
  unfold update_screening_job_progress_by_job_id
  cases gf
  · cases hf : get_screening_job_by_job_id s jid
    · simp [hf]
    · cases uf
      · refine Or.inr ⟨_, rfl, ?_⟩
        simp
      · simp [hf]
  · simp

theorem find?_map_of_pres {α : Type} (p : α → Bool) (f : α → α)
    (hp : ∀ a, p (f a) = p a) :
    ∀ l : List α, (l.map f).find? p = (l.find? p).map f := by
  intro l
  induction l with
  | nil => rfl
  | cons a l ih =>
    by_cases hpa : p a = true
    · rw [List.map_cons, List.find?_cons_of_pos _ (by rw [hp a]; exact hpa),
        List.find?_cons_of_pos _ hpa]
      rfl
    · rw [List.map_cons, List.find?_cons_of_neg _ (by rw [hp a]; simpa using hpa),
        List.find?_cons_of_neg _ (by simpa using hpa), ih]

theorem processedOf_update_mono (gf uf : Bool) (s : List ScreeningJobTracker)
    (jid fn st : String) (sid : Option String) (now jid2 : String) :
    processedOf s jid2 ≤ processedOf
      (update_screening_job_progress_by_job_id gf uf s jid fn st sid now).2 jid2 := by
  rcases update_snd_cases gf uf s jid fn st sid now with h | ⟨t0, hf, h⟩
  · rw [h]
  · rw [h]
    have hjid : t0.job_id = jid := by
      have := List.find?_some hf
      simpa using this
    have hmem : t0 ∈ s := List.mem_of_find?_eq_some hf
    have hnewjid : (applyProgress t0 fn st sid now).job_id = jid := by
      rw [applyProgress_job_id]; exact hjid
    unfold upsertTracker
    rw [if_pos (List.any_eq_true.mpr ⟨t0, hmem, by simp [hnewjid, hjid]⟩)]
    unfold processedOf get_screening_job_by_job_id
    rw [find?_map_of_pres _ _ ?hp]
    case hp =>
      intro a
      by_cases hc : a.job_id = (applyProgress t0 fn st sid now).job_id
      · rw [if_pos hc]
        simp [hc]
      · rw [if_neg hc]
    cases hb : s.find? (fun t => t.job_id = jid2) with
    | none => simp
    | some u =>
      dsimp only [Option.map]
      by_cases hc : u.job_id = (applyProgress t0 fn st sid now).job_id
      · rw [if_pos hc]
        have hu2 : u.job_id = jid2 := by simpa using List.find?_some hb
        have hjj : jid2 = jid := by rw [← hu2, hc, hnewjid]
        subst hjj
        have : u = t0 := by
          have hf2 : List.find? (fun t => decide (t.job_id = jid2)) s = some t0 := hf
          rw [hf2] at hb
          exact (Option.some_inj.mp hb).symm
        subst this
        rw [applyProgress_processed]
        omega
      · rw [if_neg hc]

/-- Claim C3: every tracker state reachable from initialization through any
sequence of progress-update operations satisfies
processed_resumes = successful_resumes + failed_resumes, and
processed_resumes is monotonically non-decreasing across every single
progress-update operation (on any store whatsoever). -/
theorem C3_tracker_invariants :
    (∀ s, ReachableStore s → ∀ t ∈ s, counterInv t)
  ∧ (∀ (gf uf : Bool) (s : List ScreeningJobTracker) (jid fn st : String)
      (sid : Option String) (now jid2 : String),
      processedOf s jid2 ≤ processedOf
        (update_screening_job_progress_by_job_id gf uf s jid fn st sid now).2 jid2) := by
  constructor
  · intro s hs
    induction hs with
    | empty => intro t ht; cases ht
    | init s1 jid uid now hr ih =>
      intro t ht
      rcases init_snd_cases s1 jid uid now with h | h
      · rw [h] at ht; exact ih t ht
      · rw [h] at ht
        rcases List.mem_append.mp ht with h1 | h1
        · exact ih t h1
        · have he : t = initTracker jid uid now := by simpa using h1
          rw [he]; exact counterInv_initTracker jid uid now
    | record s1 gf uf jid fn st sid now hr ih =>
      intro t ht
      rcases update_snd_cases gf uf s1 jid fn st sid now with h | ⟨t0, hf, h⟩
      · rw [h] at ht; exact ih t ht
      · rw [h] at ht
        rcases mem_upsertTracker ht with h1 | h1
        · rw [h1]
          exact counterInv_applyProgress t0 fn st sid now
            (ih t0 (List.mem_of_find?_eq_some hf))
        · exact ih t h1
  · exact processedOf_update_mono

theorem C3_tracker_invariants_witness :
    counterInv (initTracker "j" "u" "t0")
    ∧ processedOf [] "j" ≤ processedOf
        (update_screening_job_progress_by_job_id false false [] "j" "f" "success"
          none "t1").2 "j" :=
  ⟨C3_tracker_invariants.1 _ (ReachableStore.init [] "j" "u" "t0" ReachableStore.empty)
      _ (by decide),
   C3_tracker_invariants.2 false false [] "j" "f" "success" none "t1" "j"⟩

/-- Claim C2 (amended): the status rules the code implements.  No tracker
and count 0 gives "no_resumes"; no tracker and count > 0 gives "pending";
tracker with 0 < processed < count gives "processing"; tracker with
processed = 0 and count > 0 gives "pending" (this is where the original
claim fails); tracker with processed >= count > 0 gives "completed". -/
theorem C2_amended_status_priority
    (blobNames : List String) (screenings : List ScreeningRecord)
    (trackers : List ScreeningJobTracker) (job_id : String)
    (t : ScreeningJobTracker) :
    (get_screening_job_by_job_id trackers job_id = none →
      get_total_resumes_in_blob blobNames false job_id = 0 →
      (get_screening_job_status_by_job_id true blobNames false false trackers
        screenings job_id).map StatusView.status = some "no_resumes")
  ∧ (get_screening_job_by_job_id trackers job_id = none →
      0 < get_total_resumes_in_blob blobNames false job_id →
      (get_screening_job_status_by_job_id true blobNames false false trackers
        screenings job_id).map StatusView.status = some "pending")
  ∧ (get_screening_job_by_job_id trackers job_id = some t →
      0 < t.processed_resumes →
      t.processed_resumes < get_total_resumes_in_blob blobNames false job_id →
      (get_screening_job_status_by_job_id true blobNames false false trackers
        screenings job_id).map StatusView.status = some "processing")
  ∧ (get_screening_job_by_job_id trackers job_id = some t →
      t.processed_resumes = 0 →
      0 < get_total_resumes_in_blob blobNames false job_id →
      (get_screening_job_status_by_job_id true blobNames false false trackers
        screenings job_id).map StatusView.status = some "pending")
  ∧ (get_screening_job_by_job_id trackers job_id = some t →
      get_total_resumes_in_blob blobNames false job_id ≤ t.processed_resumes →
      0 < get_total_resumes_in_blob blobNames false job_id →
      (get_screening_job_status_by_job_id true blobNames false false trackers
        screenings job_id).map StatusView.status = some "completed") := by
  refine ⟨?_, ?_, ?_, ?_, ?_⟩
  · intro h1 h2
    unfold get_screening_job_status_by_job_id
    rw [if_pos rfl, h1]
    dsimp only
    rw [if_neg (by omega)]
    rfl
  · intro h1 h2
    unfold get_screening_job_status_by_job_id
    rw [if_pos rfl, h1]
    dsimp only
    rw [if_pos h2]
    rfl
  · intro h1 h2 h3
    unfold get_screening_job_status_by_job_id
    rw [if_pos rfl, h1]
    dsimp only
    rw [if_neg (by simp), if_neg (by omega), if_pos h2]
    rfl
  · intro h1 h2 h3
    unfold get_screening_job_status_by_job_id
    rw [if_pos rfl, h1]
    dsimp only
    rw [if_neg (by simp), if_neg (by omega), if_neg (by omega)]
    rfl
  · intro h1 h2 h3
    unfold get_screening_job_status_by_job_id
    rw [if_pos rfl, h1]
    dsimp only
    rw [if_neg (by simp), if_pos ⟨h2, h3⟩]
    rfl

/-- Claim C4: whenever the duplicate check finds an existing screening
result for (job_id, filename), `process_resume` returns success and the
whole world — jobs, trackers, screenings — is left unchanged: no job
lookup effect, no tracker creation, no persisted result, no progress
update. -/
theorem C4_duplicate_is_noop (env : Env) (w : World) (job_id url fn : String)
    (h : is_resume_already_processed env.dupQueryFails w.screenings job_id fn = true) :
    process_resume env w job_id url fn = (Except.ok (), w) := by
  unfold process_resume
  rw [if_pos h]

theorem C4_duplicate_is_noop_witness :
    process_resume dupEnv dupWorld "j" "url" "f.pdf" = (Except.ok (), dupWorld) :=
  C4_duplicate_is_noop dupEnv dupWorld "j" "url" "f.pdf" (by decide)

/-- Claim C5 is violated by the code: the persistence step keys the new
document by a freshly generated uuid, so a second save for the same
(job_id, filename) is not detected — it creates a second record — and a
genuine create conflict (same id) is surfaced to the caller as a
`Failed to save screening result` error, never as a successful no-op. -/
theorem C5_persistence_conflict_behavior :
    save_screening_result "u2" [⟨"u1", "j", "usr", none, "f.pdf"⟩] "j" "usr" "f.pdf"
      = Except.ok ("u2",
          [⟨"u1", "j", "usr", none, "f.pdf"⟩, ⟨"u2", "j", "usr", none, "f.pdf"⟩])
    ∧ save_screening_result "u1" [⟨"u1", "j", "usr", none, "f.pdf"⟩] "j" "usr" "g.pdf"
      = Except.error "Failed to save screening result: Entity with the specified id already exists in the system" :=
  ⟨rfl, rfl⟩

/-- Claim C6 counterexample: when the download step fails with "boom", the
orchestrator raises `Resume processing failed: boom` — a new error whose
message embeds the original — not the original error "boom" unchanged. -/
theorem C6_cex_error_is_wrapped :
    (process_resume envBoom worldOneJob "j" "url" "f.pdf").1
      = Except.error "Resume processing failed: boom"
    ∧ ("Resume processing failed: boom" : String) ≠ "boom" :=
  ⟨rfl, by decide⟩

/-- Claim C6 (amended): when any step after the duplicate check fails, the
orchestrator returns an error (never silently absorbs the failure), that
error is the original message wrapped as `Resume processing failed: ...`,
and the final world is the input world with the trackers replaced by a
best-effort `status="failed"` progress update (whose own failure flags are
honoured and swallowed). -/
theorem C6_amended_wrapped_reraise
    (env : Env) (w : World) (job_id url fn : String)
    (hdup : is_resume_already_processed env.dupQueryFails w.screenings job_id fn = false) :
    (((w.jobs.filter (fun j => j.job_id = job_id)).head? = none
        ∨ env.download.isOk = false
        ∨ env.parseDoc.isOk = false
        ∨ env.score.isOk = false
        ∨ w.screenings.any (fun r => r.id = env.uuid) = true) →
      ∃ e w2, process_resume env w job_id url fn = (Except.error e, w2))
  ∧ (∀ e w2, process_resume env w job_id url fn = (Except.error e, w2) →
      (∃ m, e = "Resume processing failed: " ++ m)
      ∧ ∃ mid, w2 = { w with trackers :=
          (update_screening_job_progress_by_job_id env.failUpdGetFails
            env.failUpdUpsertFails mid job_id fn "failed" none env.now).2 }) := by
  unfold process_resume
  rw [if_neg (by simp [hdup])]
  cases hj : (w.jobs.filter (fun j => j.job_id = job_id)).head? with
  | none =>
    constructor
    · intro _
      exact ⟨_, _, rfl⟩
    · intro e w2 heq
      unfold markFailed at heq
      rw [Prod.mk.injEq] at heq
      obtain ⟨he, hw⟩ := heq
      exact ⟨⟨_, (Except.error.injEq _ _).mp he.symm⟩, ⟨_, hw.symm⟩⟩
  | some job =>
    dsimp only
    cases hi : get_screening_job_by_job_id w.trackers job_id with
    | some t0 =>
      dsimp only
      cases hd : env.download with
      | error e0 =>
        constructor
        · intro _
          exact ⟨_, _, rfl⟩
        · intro e w2 heq
          unfold markFailed at heq
          rw [Prod.mk.injEq] at heq
          obtain ⟨he, hw⟩ := heq
          exact ⟨⟨_, (Except.error.injEq _ _).mp he.symm⟩, ⟨_, hw.symm⟩⟩
      | ok dl =>
        dsimp only
        cases hp : env.parseDoc with
        | error e0 =>
          constructor
          · intro _
            exact ⟨_, _, rfl⟩
          · intro e w2 heq
            unfold markFailed at heq
            rw [Prod.mk.injEq] at heq
            obtain ⟨he, hw⟩ := heq
            exact ⟨⟨_, (Except.error.injEq _ _).mp he.symm⟩, ⟨_, hw.symm⟩⟩
        | ok tx =>
          dsimp only
          cases hs : env.score with
          | error e0 =>
            constructor
            · intro _
              exact ⟨_, _, rfl⟩
            · intro e w2 heq
              unfold markFailed at heq
              rw [Prod.mk.injEq] at heq
              obtain ⟨he, hw⟩ := heq
              exact ⟨⟨_, (Except.error.injEq _ _).mp he.symm⟩, ⟨_, hw.symm⟩⟩
          | ok sc =>
            dsimp only
            unfold save_screening_result
            by_cases hsv : w.screenings.any (fun r => r.id = env.uuid) = true
            · rw [if_pos hsv]
              dsimp only
              constructor
              · intro _
                exact ⟨_, _, rfl⟩
              · intro e w2 heq
                unfold markFailed at heq
                rw [Prod.mk.injEq] at heq
                obtain ⟨he, hw⟩ := heq
                exact ⟨⟨_, (Except.error.injEq _ _).mp he.symm⟩, ⟨_, hw.symm⟩⟩
            · rw [if_neg hsv]
              dsimp only
              constructor
              · intro hfail
                rcases hfail with h | h | h | h | h
                · cases h
                · exact Bool.noConfusion h
                · exact Bool.noConfusion h
                · exact Bool.noConfusion h
                · exact absurd h hsv
              · intro e w2 heq
                rw [Prod.mk.injEq] at heq
                obtain ⟨he, hw⟩ := heq
                cases he
    | none =>
      dsimp only
      cases hd : env.download with
      | error e0 =>
        constructor
        · intro _
          exact ⟨_, _, rfl⟩
        · intro e w2 heq
          unfold markFailed at heq
          rw [Prod.mk.injEq] at heq
          obtain ⟨he, hw⟩ := heq
          exact ⟨⟨_, (Except.error.injEq _ _).mp he.symm⟩, ⟨_, hw.symm⟩⟩
      | ok dl =>
        dsimp only
        cases hp : env.parseDoc with
        | error e0 =>
          constructor
          · intro _
            exact ⟨_, _, rfl⟩
          · intro e w2 heq
            unfold markFailed at heq
            rw [Prod.mk.injEq] at heq
            obtain ⟨he, hw⟩ := heq
            exact ⟨⟨_, (Except.error.injEq _ _).mp he.symm⟩, ⟨_, hw.symm⟩⟩
        | ok tx =>
          dsimp only
          cases hs : env.score with
          | error e0 =>
            constructor
            · intro _
              exact ⟨_, _, rfl⟩
            · intro e w2 heq
              unfold markFailed at heq
              rw [Prod.mk.injEq] at heq
              obtain ⟨he, hw⟩ := heq
              exact ⟨⟨_, (Except.error.injEq _ _).mp he.symm⟩, ⟨_, hw.symm⟩⟩
          | ok sc =>
            dsimp only
            unfold save_screening_result
            by_cases hsv : w.screenings.any (fun r => r.id = env.uuid) = true
            · rw [if_pos hsv]
              dsimp only
              constructor
              · intro _
                exact ⟨_, _, rfl⟩
              · intro e w2 heq
                unfold markFailed at heq
                rw [Prod.mk.injEq] at heq
                obtain ⟨he, hw⟩ := heq
                exact ⟨⟨_, (Except.error.injEq _ _).mp he.symm⟩, ⟨_, hw.symm⟩⟩
            · rw [if_neg hsv]
              dsimp only
              constructor
              · intro hfail
                rcases hfail with h | h | h | h | h
                · cases h
                · exact Bool.noConfusion h
                · exact Bool.noConfusion h
                · exact Bool.noConfusion h
                · exact absurd h hsv
              · intro e w2 heq
                rw [Prod.mk.injEq] at heq
                obtain ⟨he, hw⟩ := heq
                cases he

theorem C6_amended_wrapped_reraise_witness :
    ∃ e w2, process_resume envBoom worldOneJob "j" "url" "f.pdf"
      = (Except.error e, w2) :=
  (C6_amended_wrapped_reraise envBoom worldOneJob "j" "url" "f.pdf" (by decide)).1
    (Or.inr (Or.inl (by decide)))

theorem stepWorker_pair_eq_update (now jid : String) (op : PendingOp)
    (store : List ScreeningJobTracker) :
    (stepWorker now jid
        (stepWorker now jid (WorkerPhase.toLoad op) store).1
        (stepWorker now jid (WorkerPhase.toLoad op) store).2)
    = (WorkerPhase.finished
        (update_screening_job_progress_by_job_id false false store jid op.filename
          op.status op.screening_id now).1,
       (update_screening_job_progress_by_job_id false false store jid op.filename
          op.status op.screening_id now).2) := by
  cases hf : get_screening_job_by_job_id store jid <;>
    simp [stepWorker, update_screening_job_progress_by_job_id, hf]

/-- Claim C8 is violated by the code: two concurrent RecordOutcome calls
for distinct filenames of the same job, interleaved load-load-write-write,
both report success yet `processed_resumes` rises from 0 to 1, not 2 — the
naive load-then-write cycle silently loses an update, while the sequential
schedule of the same two calls yields 2. -/
theorem C8_concurrent_record_outcome_loses_update :
    (runSchedule "t1" "j" [0, 1, 0, 1]
        [WorkerPhase.toLoad ⟨"a.pdf", "success", some "s1"⟩,
         WorkerPhase.toLoad ⟨"b.pdf", "success", some "s2"⟩]
        [initTracker "j" "u" "t0"]).1
      = [WorkerPhase.finished true, WorkerPhase.finished true]
  ∧ processedOf [initTracker "j" "u" "t0"] "j" = 0
  ∧ processedOf (runSchedule "t1" "j" [0, 1, 0, 1]
        [WorkerPhase.toLoad ⟨"a.pdf", "success", some "s1"⟩,
         WorkerPhase.toLoad ⟨"b.pdf", "success", some "s2"⟩]
        [initTracker "j" "u" "t0"]).2 "j" = 1
  ∧ processedOf (runSchedule "t1" "j" [0, 0, 1, 1]
        [WorkerPhase.toLoad ⟨"a.pdf", "success", some "s1"⟩,
         WorkerPhase.toLoad ⟨"b.pdf", "success", some "s2"⟩]
        [initTracker "j" "u" "t0"]).2 "j" = 2 :=
  ⟨by decide, by decide, by decide, by decide⟩

/-- Claim C9: the progress update returns a boolean on every input — it
returns `false` and leaves the store unchanged when the tracker is missing
or when any storage error (load or write-back) is injected — and a work
item can therefore complete on the success path, with its screening result
persisted, while no progress counter changes. -/
theorem C9_record_outcome_never_raises (gf uf : Bool)
    (store : List ScreeningJobTracker) (job_id fn st : String)
    (sid : Option String) (now : String) :
    ((gf = true ∨ uf = true ∨ get_screening_job_by_job_id store job_id = none) →
      update_screening_job_progress_by_job_id gf uf store job_id fn st sid now
        = (false, store))
  ∧ process_resume
      { dupQueryFails := false, download := Except.ok 1, parseDoc := Except.ok "txt",
        score := Except.ok 72, uuid := "u9", now := "t1", updGetFails := false,
        updUpsertFails := true, failUpdGetFails := false, failUpdUpsertFails := false }
      { jobs := [⟨"j", "usr"⟩], trackers := [], screenings := [] } "j" "url" "f.pdf"
    = (Except.ok (),
       { jobs := [⟨"j", "usr"⟩],
         trackers := [initTracker "j" "usr" "t1"],
         screenings := [⟨"u9", "j", "usr", none, "f.pdf"⟩] }) := by
  constructor
  · intro h
    unfold update_screening_job_progress_by_job_id
    cases gf with
    | true => rfl
    | false =>
      cases hf : get_screening_job_by_job_id store job_id with
      | none => rfl
      | some t =>
        rcases h with h | h | h
        · cases h
        · subst h; simp [hf]
        · rw [h] at hf; cases hf
  · rfl

theorem C9_record_outcome_never_raises_witness :
    update_screening_job_progress_by_job_id true false [] "j" "f" "success" none "t"
      = (false, []) :=
  (C9_record_outcome_never_raises true false [] "j" "f" "success" none "t").1
    (Or.inl rfl)

/-- Claim C7: message intake fails exactly when the data URL is missing
(absent or empty), the subject does not match the containers/blobs
pattern, or the remainder after the container segment has fewer than two
path components; on every other input it produces a WorkItem; and the
spec's example payload parses to
WorkItem(job_id="job1", filename="file.pdf", container="resumes"). -/
theorem C7_parse_contract :
    (∀ e : EventMsg,
      (parse_event_grid_message (MessageBody.single e)).isOk
        = !(urlFalsy e || subjectNoMatch e || remainderTooShort e))
  ∧ (∀ (e : EventMsg) (es : List EventMsg),
      parse_event_grid_message (MessageBody.batch (e :: es))
        = parse_event_grid_message (MessageBody.single e))
  ∧ parse_event_grid_message (MessageBody.single
      ⟨some "https://x/resumes/job1/file.pdf",
       ".../containers/resumes/blobs/job1/file.pdf"⟩)
    = Except.ok ⟨"job1", "https://x/resumes/job1/file.pdf", "file.pdf", "resumes"⟩ := by
  refine ⟨?_, fun e es => rfl, rfl⟩
  intro e
  unfold parse_event_grid_message firstEvent urlFalsy subjectNoMatch remainderTooShort
  dsimp only
  cases hu : e.dataUrl with
  | none =>
    rfl
  | some url =>
    dsimp only
    by_cases hemp : url = ""
    · subst hemp
      rfl
    · rw [if_neg hemp]
      cases hsp : searchPattern e.subject.toList with
      | none =>
        simp [hemp, Except.isOk, Except.toBool]
      | some pr =>
        obtain ⟨cont, rest⟩ := pr
        dsimp only
        unfold splitFirstSlash
        by_cases hsl : (rest.any fun c => c = '/') = true
        · rw [if_pos hsl]
          simp [hemp, hsl, Except.isOk, Except.toBool]
        · rw [if_neg hsl]
          simp [hemp, hsl, Except.isOk, Except.toBool]

theorem C1_total_resumes_recomputed_from_blob_witness :
    (⟨"j", "pending", 1, 0, 0, 0, 0, []⟩ : StatusView).total_resumes
      = (((["j/a.pdf"].filter (fun n => strHasPrefix ("j" ++ "/") n)).filter
          (fun n => ¬ (strHasSuffix "/" n))).length) :=
  C1_total_resumes_recomputed_from_blob ["j/a.pdf"] false [] [] "j" _ rfl

theorem C2_amended_status_priority_witness :
    (get_screening_job_status_by_job_id true ["j/a.pdf", "j/b.pdf"] false false
      [{ initTracker "j" "u" "t0" with processed_resumes := 1, successful_resumes := 1 }]
      [] "j").map StatusView.status = some "processing" :=
  (C2_amended_status_priority ["j/a.pdf", "j/b.pdf"] []
      [{ initTracker "j" "u" "t0" with processed_resumes := 1, successful_resumes := 1 }]
      "j" { initTracker "j" "u" "t0" with processed_resumes := 1, successful_resumes := 1 }).2.2.1
    rfl (by decide) (by decide)

theorem C10_listing_error_yields_zero_and_no_resumes_witness :
    get_total_resumes_in_blob ["j/a.pdf"] true "j" = 0
    ∧ get_screening_job_status_by_job_id true ["j/a.pdf"] true false [] [] "j"
      = some ⟨"j", "no_resumes", 0, 0, 0, 0, 0, []⟩ :=
  C10_listing_error_yields_zero_and_no_resumes ["j/a.pdf"] [] [] "j" rfl
